import Mathlib

/-!
Verification of the GRAVIS RAG benchmark analysis tool
(`gravis-app/scripts/benchmark_analysis.py`).

The script is shallowly embedded: pandas DataFrames become ordered lists of
`MeasurementRecord`s, numeric CSV columns become exact rationals, and the
pandas operations used by the script are modelled by their documented
semantics (`idxmax`/`idxmin` return the index of the *first* occurrence of
the extremum, which is exactly `List.argmax`/`List.argmin`; boolean-mask
filtering is `List.filter`; `Series.unique` returns distinct values in
first-seen order).  Console output and the report-file write are modelled
as explicit effect lists, so "side effects" of a stage are visible data.
-/

namespace BenchmarkAnalysis

/-- One row of a benchmark CSV, as used by `generate_report`.  Field names
follow the CSV schema; `source_file` is the provenance column added by
`analyze_benchmarks` (line 29 of the script). -/
structure MeasurementRecord where
  size : String
  chunks_count : Int
  ef_search : Int
  indexing_time_min : ℚ
  throughput_chunks_per_min : ℚ
  ram_max_gb : ℚ
  qdrant_disk_gb : ℚ
  p95_latency_ms : ℚ
  recall_at_10 : ℚ
  source_file : String
deriving Repr, DecidableEq

/-- The fixed acceptance thresholds (script lines 69-74). -/
structure Thresholds where
  throughput_min : ℚ
  p95_latency_max : ℚ
  recall_min : ℚ
  disk_max : ℚ
deriving Repr, DecidableEq

/-- `thresholds = {'throughput_min': 1000, 'p95_latency_max': 120,
'recall_min': 0.85, 'disk_max': 0.6}`. -/
def thresholds : Thresholds :=
  { throughput_min := 1000
    p95_latency_max := 120
    recall_min := mkRat 85 100
    disk_max := mkRat 6 10 }

/-- `best_row['throughput_chunks_per_min'] >= thresholds['throughput_min']`
(script line 86). -/
def throughput_ok (r : MeasurementRecord) : Bool :=
  decide (thresholds.throughput_min ≤ r.throughput_chunks_per_min)

/-- `best_row['p95_latency_ms'] <= thresholds['p95_latency_max']` (line 87). -/
def latency_ok (r : MeasurementRecord) : Bool :=
  decide (r.p95_latency_ms ≤ thresholds.p95_latency_max)

/-- `best_row['recall_at_10'] >= thresholds['recall_min']` (line 88). -/
def recall_ok (r : MeasurementRecord) : Bool :=
  decide (thresholds.recall_min ≤ r.recall_at_10)

/-- `best_row['qdrant_disk_gb'] <= thresholds['disk_max']` (line 89). -/
def disk_ok (r : MeasurementRecord) : Bool :=
  decide (r.qdrant_disk_gb ≤ thresholds.disk_max)

/-- The go/no-go evaluation of one representative row: the four dimension
booleans of lines 86-89 and the verdict of line 91,
`all([throughput_ok, latency_ok, recall_ok, disk_ok])`. -/
structure EvalResult where
  best_row : MeasurementRecord
  throughput_ok : Bool
  latency_ok : Bool
  recall_ok : Bool
  disk_ok : Bool
  go : Bool
deriving Repr, DecidableEq

/-- Builds the `EvalResult` for a given representative row (lines 86-91). -/
def evalRecord (best_row : MeasurementRecord) : EvalResult :=
  { best_row := best_row
    throughput_ok := throughput_ok best_row
    latency_ok := latency_ok best_row
    recall_ok := recall_ok best_row
    disk_ok := disk_ok best_row
    go := throughput_ok best_row && latency_ok best_row &&
          recall_ok best_row && disk_ok best_row }

/-- The ThresholdEvaluator: restrict to `size == 'full'` rows (line 78 with
line 82's guard) and take `size_df.loc[size_df['recall_at_10'].idxmax()]`
(line 84) as representative.  pandas `idxmax` returns the first index
attaining the maximum, which is `List.argmax`.  `none` models the case
where no "full" row exists, in which case lines 84-101 never run. -/
def evalFull (df : List MeasurementRecord) : Option EvalResult :=
  ((df.filter (fun r => r.size == "full")).argmax
      (fun r => r.recall_at_10)).map evalRecord

/-- ConfigSelector's three picks for one size group (lines 107-109). -/
structure Selection where
  best_latency : MeasurementRecord
  best_recall : MeasurementRecord
  best_throughput : MeasurementRecord
deriving Repr, DecidableEq

/-- `best_latency = size_df.loc[size_df['p95_latency_ms'].idxmin()]`,
`best_recall = size_df.loc[size_df['recall_at_10'].idxmax()]`,
`best_throughput = size_df.loc[size_df['throughput_chunks_per_min'].idxmax()]`
(lines 107-109).  `none` models the (unreachable for groups derived from
rows actually present) empty-group case, where pandas would raise. -/
def selectConfigs (size_df : List MeasurementRecord) : Option Selection :=
  match size_df.argmin (fun r => r.p95_latency_ms),
        size_df.argmax (fun r => r.recall_at_10),
        size_df.argmax (fun r => r.throughput_chunks_per_min) with
  | some bl, some br, some bt =>
      some { best_latency := bl, best_recall := br, best_throughput := bt }
  | _, _, _ => none

/-- `Series.unique`: distinct values of `f` over the rows, in first-seen
order (used at lines 56-57 as `df['size'].unique()` and
`df['ef_search'].unique()`). -/
def uniqueValues {α : Type} [DecidableEq α]
    (f : MeasurementRecord → α) (df : List MeasurementRecord) : List α :=
  df.foldl (fun acc r => if f r ∈ acc then acc else acc ++ [f r]) []

/-- `unique_sizes = df['size'].unique()` (line 56). -/
def uniqueSizes (df : List MeasurementRecord) : List String :=
  uniqueValues (fun r => r.size) df

/-- `unique_ef_values = df['ef_search'].unique()` (line 57). -/
def uniqueEf (df : List MeasurementRecord) : List Int :=
  uniqueValues (fun r => r.ef_search) df

/-- The tuning-guidance deltas (lines 132-141): when the dataset has a
"full" size, take the first full row with `ef_search == 32` and the first
with `ef_search == 128` (the boolean-mask filter followed by `.iloc[0]`);
when both exist, return
`((p95_128 - p95_32) / p95_32 * 100, (recall_128 - recall_32) / recall_32 * 100)`. -/
def tuningDeltas (df : List MeasurementRecord) : Option (ℚ × ℚ) :=
  if "full" ∈ uniqueSizes df then
    match (df.filter (fun r => r.size == "full")).find?
            (fun r => r.ef_search == 32),
          (df.filter (fun r => r.size == "full")).find?
            (fun r => r.ef_search == 128) with
    | some e32, some e128 =>
        some (((e128.p95_latency_ms - e32.p95_latency_ms) /
                 e32.p95_latency_ms) * 100,
              ((e128.recall_at_10 - e32.recall_at_10) /
                 e32.recall_at_10) * 100)
    | _, _ => none
  else none

/-- The two denominators of the delta computation (lines 140-141): the
first full `ef_search == 32` row's `p95_latency_ms` and `recall_at_10`,
used for division with no zero guard. -/
def tuningDenominators (df : List MeasurementRecord) : Option (ℚ × ℚ) :=
  (((df.filter (fun r => r.size == "full")).find?
      (fun r => r.ef_search == 32)).map
    (fun e => (e.p95_latency_ms, e.recall_at_10)))

/-- The data-model bounds of the specification's §3: all numeric fields
non-negative and `recall_at_10 ∈ [0, 1]`. -/
def recordBounds (r : MeasurementRecord) : Prop :=
  0 ≤ r.chunks_count ∧ 0 ≤ r.indexing_time_min ∧
  0 ≤ r.throughput_chunks_per_min ∧ 0 ≤ r.ram_max_gb ∧
  0 ≤ r.qdrant_disk_gb ∧ 0 ≤ r.p95_latency_ms ∧
  0 ≤ r.recall_at_10 ∧ r.recall_at_10 ≤ 1

instance (r : MeasurementRecord) : Decidable (recordBounds r) := by
  unfold recordBounds; infer_instance

/-! Number formatting.  Python's fixed-point format specifiers (`:.1f`,
`:.3f`, `:+.1f`, `:,`) are modelled on exact rationals: round half to even
at the requested number of decimals, then print the digits. -/

/-- Round half to even of the fraction `n / d` (`d` positive), Python's
rounding mode for `format`: `f` is the floor, `r` the remainder, and the
fractional part `r / d` is compared against one half via `2 * r` vs `d`. -/
def roundHalfEven (n : ℤ) (d : ℕ) : ℤ :=
  let f := Int.fdiv n d
  let r := n - f * d
  if 2 * r < (d : ℤ) then f
  else if (d : ℤ) < 2 * r then f + 1
  else if f % 2 = 0 then f else f + 1

/-- Left-pads a string with `'0'` up to width `w`. -/
def padZeros (w : Nat) (s : String) : String :=
  if w ≤ s.length then s
  else String.mk (List.replicate (w - s.length) '0') ++ s

/-- Left-pads a string with spaces up to width `w` (Python `:>w`). -/
def padLeftW (w : Nat) (s : String) : String :=
  if w ≤ s.length then s
  else String.mk (List.replicate (w - s.length) ' ') ++ s

/-- Python `format(q, '.df')`: fixed-point with `dp` decimals, rounding
`q * 10 ^ dp` half to even (computed on `q`'s reduced numerator and
denominator). -/
def fmtFixed (dp : Nat) (q : ℚ) : String :=
  let n := roundHalfEven (q.num * (10 : ℤ) ^ dp) q.den
  let ip := n.natAbs / 10 ^ dp
  let fp := n.natAbs % 10 ^ dp
  let body :=
    if dp = 0 then toString ip
    else toString ip ++ "." ++ padZeros dp (toString fp)
  if n < 0 then "-" ++ body else body

/-- Python `format(q, '+.df')`: as `fmtFixed`, with an explicit sign. -/
def fmtSigned (dp : Nat) (q : ℚ) : String :=
  if roundHalfEven (q.num * (10 : ℤ) ^ dp) q.den < 0 then fmtFixed dp q
  else "+" ++ fmtFixed dp q

/-- Inserts thousands separators into a reversed digit list. -/
def commaRev : List Char → Nat → List Char
  | [], _ => []
  | c :: rest, k =>
    if 0 < k && k % 3 == 0 then ',' :: c :: commaRev rest (k + 1)
    else c :: commaRev rest (k + 1)

/-- Python `format(n, ',')`: decimal digits with thousands separators. -/
def fmtComma (n : Int) : String :=
  let body := String.mk ((commaRev (toString n.natAbs).toList.reverse 0).reverse)
  if n < 0 then "-" ++ body else body

/-! The report document (`generate_report`, lines 45-158).  The report is
the list of appended lines; the file write of lines 153-157 and the console
prints are recorded as explicit effects. -/

/-- `', '`, the join separator of lines 60-61. -/
def commaSep : String := ", "

/-- The newline used by `'\n'.join(report)` (line 153). -/
def nl : String := "\n"

/-- `report_path = "benchmark_analysis_report.md"` (line 154). -/
def reportPath : String := "benchmark_analysis_report.md"

/-- The go/no-go block of lines 82-101, rendered for the (nonempty) "full"
group: representative = first row with maximal `recall_at_10`, then the
status line and the four-row criteria table.  For an empty group the block
is never reached by the script (sizes are drawn from rows present). -/
def goNoGoBlock (size_df : List MeasurementRecord) : List String :=
  match size_df.argmax (fun r => r.recall_at_10) with
  | none => []
  | some best_row =>
    let e := evalRecord best_row
    let status := if e.go then "✅ GO" else "❌ NO-GO"
    [ "**Status**: " ++ status,
      "",
      "| Metric | Value | Threshold | Status |",
      "|--------|-------|-----------|--------|",
      "| Throughput | " ++ fmtFixed 0 best_row.throughput_chunks_per_min ++
        " chunks/min | ≥1000 | " ++ (if e.throughput_ok then "✅" else "❌") ++ " |",
      "| P95 Latency | " ++ fmtFixed 1 best_row.p95_latency_ms ++
        "ms | ≤120ms | " ++ (if e.latency_ok then "✅" else "❌") ++ " |",
      "| Recall@10 | " ++ fmtFixed 3 best_row.recall_at_10 ++
        " | ≥0.85 | " ++ (if e.recall_ok then "✅" else "❌") ++ " |",
      "| Disk Usage | " ++ fmtFixed 2 best_row.qdrant_disk_gb ++
        "GB | ≤0.6GB | " ++ (if e.disk_ok then "✅" else "❌") ++ " |",
      "" ]

/-- One row of the recommended-configurations table (lines 113-115). -/
def recommendedRow (label : String) (r : MeasurementRecord) : String :=
  "| " ++ label ++ " | " ++ toString r.ef_search ++ " | " ++
    fmtFixed 1 r.p95_latency_ms ++ "ms | " ++ fmtFixed 3 r.recall_at_10 ++
    " | " ++ fmtFixed 0 r.throughput_chunks_per_min ++ " |"

/-- The recommended-configurations table of lines 104-116 for one group. -/
def recommendedBlock (size_df : List MeasurementRecord) : List String :=
  match selectConfigs size_df with
  | none => []
  | some sel =>
    [ "| Objective | ef_search | P95 Latency | Recall@10 | Throughput |",
      "|-----------|-----------|-------------|-----------|------------|",
      recommendedRow ("**Lowest Latency**") sel.best_latency,
      recommendedRow ("**Best Recall**") sel.best_recall,
      recommendedRow ("**Best Throughput**") sel.best_throughput,
      "" ]

/-- The lines the go/no-go analysis contributes to one size section: the
block of lines 82-101 when the size is "full", nothing otherwise. -/
def goNoGoContrib (df : List MeasurementRecord) (size : String) : List String :=
  if size == "full" then goNoGoBlock (df.filter (fun r => r.size == size))
  else []

/-- One iteration of the per-size loop (lines 77-116). -/
def sizeSection (df : List MeasurementRecord) (size : String) : List String :=
  let size_df := df.filter (fun r => r.size == size)
  ["### " ++ size.toUpper ++ " Benchmark", ""]
    ++ goNoGoContrib df size
    ++ ["#### Recommended Configurations", ""]
    ++ recommendedBlock size_df

/-- One row of the complete-results table (line 125). -/
def resultRow (r : MeasurementRecord) : String :=
  "| " ++ r.size ++ " | " ++ fmtComma r.chunks_count ++ " | " ++
    toString r.ef_search ++ " | " ++ fmtFixed 1 r.indexing_time_min ++
    " | " ++ fmtFixed 0 r.throughput_chunks_per_min ++ " | " ++
    fmtFixed 1 r.ram_max_gb ++ " | " ++ fmtFixed 2 r.qdrant_disk_gb ++
    " | " ++ fmtFixed 1 r.p95_latency_ms ++ " | " ++
    fmtFixed 3 r.recall_at_10 ++ " |"

/-- The tuning-guidance delta line (lines 132-143): present exactly when
`tuningDeltas` produced a pair, absent otherwise. -/
def tuningLines (df : List MeasurementRecord) : List String :=
  match tuningDeltas df with
  | some (ld, rd) =>
      ["- **ef_search=32 vs 128**: " ++ fmtSigned 1 ld ++ "% latency, " ++
        fmtSigned 1 rd ++ "% recall"]
  | none => []

/-- All lines appended to `report` in `generate_report`, in order
(lines 48-150). -/
def reportLines (df : List MeasurementRecord) : List String :=
  [ "# 🎯 GRAVIS RAG Benchmark Analysis Report",
    "",
    "## 📊 Executive Summary",
    "",
    "- **Total tests run**: " ++ toString (df.length),
    "- **Benchmark sizes**: " ++ String.intercalate commaSep (uniqueSizes df),
    "- **ef_search values tested**: " ++
      String.intercalate commaSep ((uniqueEf df).map (fun n => toString n)),
    "",
    "## 🚦 Go/No-Go Analysis",
    "" ]
  ++ ((uniqueSizes df).map (sizeSection df)).flatten
  ++ [ "## 📋 Complete Results",
       "",
       "| Size | Chunks | ef_search | Indexing (min) | Throughput | RAM (GB) | Disk (GB) | P95 Latency (ms) | Recall@10 |",
       "|------|--------|-----------|----------------|------------|----------|-----------|------------------|-----------|" ]
  ++ df.map resultRow
  ++ [ "", "## 🔧 Tuning Recommendations", "" ]
  ++ tuningLines df
  ++ [ "- **For production**: Use ef_search=64 as baseline, tune based on requirements",
       "- **Low latency**: ef_search=32 (trade-off: -2-5% recall)",
       "- **High quality**: ef_search=128 (trade-off: +20-40% latency)",
       "",
       "---",
       "*Report generated by GRAVIS RAG Benchmark Analysis Tool*" ]

/-- One line of the console summary loop (lines 165-168); the group is
nonempty whenever `size` is drawn from `uniqueSizes`. -/
def summaryLine (df : List MeasurementRecord) (size : String) : List String :=
  match (df.filter (fun r => r.size == size)).argmax
          (fun r => r.recall_at_10) with
  | none => []
  | some best =>
      [ padLeftW 6 size.toUpper ++ ": ef=" ++
          padLeftW 3 (toString best.ef_search) ++ ", latency=" ++
          padLeftW 5 (fmtFixed 1 best.p95_latency_ms) ++ "ms, recall=" ++
          fmtFixed 3 best.recall_at_10 ]

/-- The observable effects of a run: console prints (in order) and file
writes (path, content). -/
structure RunResult where
  prints : List String
  fileWrites : List (String × String)
deriving Repr, DecidableEq

/-- `generate_report(df)` (lines 45-168): builds the report lines, writes
`'\n'.join(report)` to `benchmark_analysis_report.md` (lines 153-157) and
prints the confirmation plus the console summary (lines 159-168). -/
def generate_report (df : List MeasurementRecord) : RunResult :=
  { fileWrites := [(reportPath, String.intercalate nl (reportLines df))]
    prints :=
      ("📄 Report generated: " ++ reportPath)
        :: (nl ++ String.mk (List.replicate 50 '='))
        :: "📊 BENCHMARK ANALYSIS SUMMARY"
        :: String.mk (List.replicate 50 '=')
        :: ((uniqueSizes df).map (summaryLine df)).flatten }

/-- The "no sources" message of line 19. -/
def noFilesMsg (csv_pattern : String) : String :=
  "❌ No CSV files found matching pattern: " ++ csv_pattern

/-- The "no valid CSV files" message of line 36. -/
def noValidMsg : String := "❌ No valid CSV files loaded"

/-- The per-source load step of lines 26-33: a source is a file name
together with its parse outcome (`none` when `pd.read_csv` raises); a
successfully parsed source yields its rows with `source_file` set to the
file's name, a failed source is skipped wholesale. -/
def loadSources (sources : List (String × Option (List MeasurementRecord))) :
    List (List MeasurementRecord) :=
  sources.filterMap
    (fun s => s.2.map (fun rows =>
      rows.map (fun r => { r with source_file := s.1 })))

/-- `pd.concat(dfs, ignore_index=True)` (line 40): origin order, then row
order within each origin. -/
def combinedOf (sources : List (String × Option (List MeasurementRecord))) :
    List MeasurementRecord :=
  (loadSources sources).flatten

/-- `analyze_benchmarks` (lines 13-43).  `sources` is the glob result in
filesystem-returned order; each entry carries its parse outcome.  The
per-source exception text of line 33 is elided (only the failing file name
is modelled). -/
def analyze_benchmarks (csv_pattern : String)
    (sources : List (String × Option (List MeasurementRecord))) : RunResult :=
  if sources.isEmpty then
    { prints := [noFilesMsg csv_pattern], fileWrites := [] }
  else
    let header := "📊 Found " ++ toString (sources.length) ++
      " CSV files to analyze"
    let loadPrints := sources.map (fun s =>
      match s.2 with
      | some rows => "✅ Loaded " ++ s.1 ++ ": " ++ toString (rows.length) ++ " rows"
      | none => "❌ Error loading " ++ s.1)
    if (loadSources sources).isEmpty then
      { prints := header :: loadPrints ++ [noValidMsg], fileWrites := [] }
    else
      let rep := generate_report (combinedOf sources)
      { prints := header :: loadPrints ++ rep.prints
        fileWrites := rep.fileWrites }

/-! Specification-side predicates and concrete sample data used to settle
the claims. -/

/-- `m` is the earliest record of `l` attaining the minimal value of `f`:
it belongs to `l`, no record of `l` has a strictly smaller `f`, and every
record matching the minimum sits at the same position or later. -/
def firstMinOn (f : MeasurementRecord → ℚ) (l : List MeasurementRecord)
    (m : MeasurementRecord) : Prop :=
  m ∈ l ∧ (∀ x ∈ l, f m ≤ f x) ∧
    ∀ x ∈ l, f x ≤ f m → l.indexOf m ≤ l.indexOf x

/-- `m` is the earliest record of `l` attaining the maximal value of `f`. -/
def firstMaxOn (f : MeasurementRecord → ℚ) (l : List MeasurementRecord)
    (m : MeasurementRecord) : Prop :=
  m ∈ l ∧ (∀ x ∈ l, f x ≤ f m) ∧
    ∀ x ∈ l, f m ≤ f x → l.indexOf m ≤ l.indexOf x

/-- A production-grade sample row (passes all four thresholds). -/
def wRec : MeasurementRecord :=
  { size := "full", chunks_count := 100000, ef_search := 64
    indexing_time_min := 10, throughput_chunks_per_min := 1200
    ram_max_gb := 2, qdrant_disk_gb := 0, p95_latency_ms := 90
    recall_at_10 := 1, source_file := "a.csv" }

/-- First of two "full" rows tied at the maximal recall. -/
def tieA : MeasurementRecord :=
  { size := "full", chunks_count := 100000, ef_search := 32
    indexing_time_min := 10, throughput_chunks_per_min := 1500
    ram_max_gb := 2, qdrant_disk_gb := 0, p95_latency_ms := 80
    recall_at_10 := 1, source_file := "a.csv" }

/-- Second of two "full" rows tied at the maximal recall. -/
def tieB : MeasurementRecord :=
  { size := "full", chunks_count := 100000, ef_search := 128
    indexing_time_min := 12, throughput_chunks_per_min := 1200
    ram_max_gb := 2, qdrant_disk_gb := 0, p95_latency_ms := 100
    recall_at_10 := 1, source_file := "a.csv" }

/-- A dataset with a recall tie between two "full" rows. -/
def tieDf : List MeasurementRecord := [tieA, tieB]

/-- A "small" row: fastest and highest-throughput of its group. -/
def selA : MeasurementRecord :=
  { size := "small", chunks_count := 1000, ef_search := 32
    indexing_time_min := 1, throughput_chunks_per_min := 2000
    ram_max_gb := 1, qdrant_disk_gb := 0, p95_latency_ms := 50
    recall_at_10 := 0, source_file := "a.csv" }

/-- A "small" row: best recall of its group. -/
def selB : MeasurementRecord :=
  { size := "small", chunks_count := 1000, ef_search := 128
    indexing_time_min := 2, throughput_chunks_per_min := 1500
    ram_max_gb := 1, qdrant_disk_gb := 0, p95_latency_ms := 60
    recall_at_10 := 1, source_file := "a.csv" }

/-- A dataset with a single "small" category and no "full" rows. -/
def selDf : List MeasurementRecord := [selA, selB]

/-- The specification's tuning-guidance scenario: `ef_search = 32` with
`p95_latency_ms = 80`, `recall_at_10 = 0.80`. -/
def tune32 : MeasurementRecord :=
  { size := "full", chunks_count := 100000, ef_search := 32
    indexing_time_min := 10, throughput_chunks_per_min := 1200
    ram_max_gb := 2, qdrant_disk_gb := 0, p95_latency_ms := 80
    recall_at_10 := mkRat 8 10, source_file := "a.csv" }

/-- The specification's tuning-guidance scenario: `ef_search = 128` with
`p95_latency_ms = 100`, `recall_at_10 = 0.90`. -/
def tune128 : MeasurementRecord :=
  { size := "full", chunks_count := 100000, ef_search := 128
    indexing_time_min := 12, throughput_chunks_per_min := 1100
    ram_max_gb := 2, qdrant_disk_gb := 0, p95_latency_ms := 100
    recall_at_10 := mkRat 9 10, source_file := "a.csv" }

/-- The dataset of the tuning-guidance scenario. -/
def tuningDf : List MeasurementRecord := [tune32, tune128]

/-- A parseable row violating the data-model bounds (`recall_at_10 = 2`,
negative latency): `pd.read_csv` accepts any numeric values. -/
def badRec : MeasurementRecord :=
  { size := "full", chunks_count := 100000, ef_search := 64
    indexing_time_min := 10, throughput_chunks_per_min := 1200
    ram_max_gb := 2, qdrant_disk_gb := 0, p95_latency_ms := -5
    recall_at_10 := 2, source_file := "" }

/-- A single successfully parsed source containing the out-of-bounds row. -/
def badSources : List (String × Option (List MeasurementRecord)) :=
  [("bad.csv", some [badRec])]

/-- A row satisfying every data-model bound with `p95_latency_ms = 0` and
`recall_at_10 = 0`. -/
def zeroRec : MeasurementRecord :=
  { size := "full", chunks_count := 0, ef_search := 32
    indexing_time_min := 0, throughput_chunks_per_min := 0
    ram_max_gb := 0, qdrant_disk_gb := 0, p95_latency_ms := 0
    recall_at_10 := 0, source_file := "a.csv" }

/-! Helper lemmas. -/

theorem mem_uniqueValues_foldl {α : Type} [DecidableEq α]
    (f : MeasurementRecord → α) (df : List MeasurementRecord)
    (acc : List α) (s : α) :
    (s ∈ df.foldl (fun a r => if f r ∈ a then a else a ++ [f r]) acc) ↔
      s ∈ acc ∨ ∃ r ∈ df, f r = s := by
  induction df generalizing acc with
  | nil => simp
  | cons x xs ih =>
    simp only [List.foldl_cons]
    rw [ih]
    by_cases hx : f x ∈ acc
    · simp only [if_pos hx]
      constructor
      · rintro (h | ⟨r, hr, rfl⟩)
        · exact Or.inl h
        · exact Or.inr ⟨r, List.mem_cons_of_mem _ hr, rfl⟩
      · rintro (h | ⟨r, hr, rfl⟩)
        · exact Or.inl h
        · rcases List.mem_cons.mp hr with rfl | hr
          · exact Or.inl hx
          · exact Or.inr ⟨r, hr, rfl⟩
    · simp only [if_neg hx, List.mem_append, List.mem_singleton]
      constructor
      · rintro ((h | h) | ⟨r, hr, rfl⟩)
        · exact Or.inl h
        · exact Or.inr ⟨x, List.mem_cons_self x xs, h.symm⟩
        · exact Or.inr ⟨r, List.mem_cons_of_mem _ hr, rfl⟩
      · rintro (h | ⟨r, hr, rfl⟩)
        · exact Or.inl (Or.inl h)
        · rcases List.mem_cons.mp hr with rfl | hr
          · exact Or.inl (Or.inr rfl)
          · exact Or.inr ⟨r, hr, rfl⟩

theorem mem_uniqueValues {α : Type} [DecidableEq α]
    (f : MeasurementRecord → α) (df : List MeasurementRecord) (s : α) :
    s ∈ uniqueValues f df ↔ ∃ r ∈ df, f r = s := by
  rw [uniqueValues, mem_uniqueValues_foldl]
  simp

theorem size_mem_uniqueSizes (df : List MeasurementRecord)
    (r : MeasurementRecord) (hr : r ∈ df) : r.size ∈ uniqueSizes df := by
  rw [uniqueSizes, mem_uniqueValues]
  exact ⟨r, hr, rfl⟩

theorem filter_size_ne_nil (df : List MeasurementRecord) (s : String)
    (hs : s ∈ uniqueSizes df) : df.filter (fun r => r.size == s) ≠ [] := by
  rw [uniqueSizes, mem_uniqueValues] at hs
  obtain ⟨r, hr, hsz⟩ := hs
  intro h
  have hmem : r ∈ df.filter (fun r => r.size == s) :=
    List.mem_filter.mpr ⟨hr, by simp [hsz]⟩
  rw [h] at hmem
  exact (List.not_mem_nil r) hmem

theorem argmax_of_ne_nil (f : MeasurementRecord → ℚ)
    (l : List MeasurementRecord) (h : l ≠ []) :
    ∃ m, l.argmax f = some m := by
  cases hm : l.argmax f with
  | none => exact absurd (List.argmax_eq_none.mp hm) h
  | some m => exact ⟨m, rfl⟩

theorem argmin_of_ne_nil (f : MeasurementRecord → ℚ)
    (l : List MeasurementRecord) (h : l ≠ []) :
    ∃ m, l.argmin f = some m := by
  cases hm : l.argmin f with
  | none => exact absurd (List.argmin_eq_none.mp hm) h
  | some m => exact ⟨m, rfl⟩

theorem argmax_firstMaxOn (f : MeasurementRecord → ℚ)
    (l : List MeasurementRecord) (m : MeasurementRecord)
    (hm : l.argmax f = some m) : firstMaxOn f l m := by
  obtain ⟨h1, h2, h3⟩ := List.argmax_eq_some_iff.mp hm
  exact ⟨h1, h2, fun x hx hle => h3 x hx hle⟩

theorem argmin_firstMinOn (f : MeasurementRecord → ℚ)
    (l : List MeasurementRecord) (m : MeasurementRecord)
    (hm : l.argmin f = some m) : firstMinOn f l m := by
  obtain ⟨h1, h2, h3⟩ := List.argmin_eq_some_iff.mp hm
  exact ⟨h1, h2, fun x hx hle => h3 x hx hle⟩

theorem selectConfigs_of_ne_nil (size_df : List MeasurementRecord)
    (h : size_df ≠ []) :
    ∃ sel, selectConfigs size_df = some sel ∧
      size_df.argmin (fun r => r.p95_latency_ms) = some sel.best_latency ∧
      size_df.argmax (fun r => r.recall_at_10) = some sel.best_recall ∧
      size_df.argmax (fun r => r.throughput_chunks_per_min) =
        some sel.best_throughput := by
  obtain ⟨bl, hbl⟩ := argmin_of_ne_nil (fun r => r.p95_latency_ms) size_df h
  obtain ⟨br, hbr⟩ := argmax_of_ne_nil (fun r => r.recall_at_10) size_df h
  obtain ⟨bt, hbt⟩ :=
    argmax_of_ne_nil (fun r => r.throughput_chunks_per_min) size_df h
  refine ⟨⟨bl, br, bt⟩, ?_, hbl, hbr, hbt⟩
  rw [selectConfigs, hbl, hbr, hbt]

/-! Claim theorems. -/

/-- C1: for a dataset with at least one "full" record (witnessed by the
evaluator producing a result), the verdict is GO iff all four dimension
comparisons hold; and moving any single numeric field of a record across
its bound while the other three stay fixed flips exactly that dimension's
boolean and leaves the other three booleans unchanged. -/
theorem go_verdict_iff_all_dimensions (df : List MeasurementRecord)
    (e : EvalResult) (h : evalFull df = some e) :
    (e.go = true ↔
      (thresholds.throughput_min ≤ e.best_row.throughput_chunks_per_min ∧
       e.best_row.p95_latency_ms ≤ thresholds.p95_latency_max ∧
       thresholds.recall_min ≤ e.best_row.recall_at_10 ∧
       e.best_row.qdrant_disk_gb ≤ thresholds.disk_max)) ∧
    (∀ r r' : MeasurementRecord,
      r'.p95_latency_ms = r.p95_latency_ms → r'.recall_at_10 = r.recall_at_10 →
      r'.qdrant_disk_gb = r.qdrant_disk_gb →
      ((thresholds.throughput_min ≤ r.throughput_chunks_per_min) ↔
        ¬thresholds.throughput_min ≤ r'.throughput_chunks_per_min) →
      throughput_ok r' = !throughput_ok r ∧ latency_ok r' = latency_ok r ∧
        recall_ok r' = recall_ok r ∧ disk_ok r' = disk_ok r) ∧
    (∀ r r' : MeasurementRecord,
      r'.throughput_chunks_per_min = r.throughput_chunks_per_min →
      r'.recall_at_10 = r.recall_at_10 → r'.qdrant_disk_gb = r.qdrant_disk_gb →
      ((r.p95_latency_ms ≤ thresholds.p95_latency_max) ↔
        ¬r'.p95_latency_ms ≤ thresholds.p95_latency_max) →
      latency_ok r' = !latency_ok r ∧ throughput_ok r' = throughput_ok r ∧
        recall_ok r' = recall_ok r ∧ disk_ok r' = disk_ok r) ∧
    (∀ r r' : MeasurementRecord,
      r'.throughput_chunks_per_min = r.throughput_chunks_per_min →
      r'.p95_latency_ms = r.p95_latency_ms → r'.qdrant_disk_gb = r.qdrant_disk_gb →
      ((thresholds.recall_min ≤ r.recall_at_10) ↔
        ¬thresholds.recall_min ≤ r'.recall_at_10) →
      recall_ok r' = !recall_ok r ∧ throughput_ok r' = throughput_ok r ∧
        latency_ok r' = latency_ok r ∧ disk_ok r' = disk_ok r) ∧
    (∀ r r' : MeasurementRecord,
      r'.throughput_chunks_per_min = r.throughput_chunks_per_min →
      r'.p95_latency_ms = r.p95_latency_ms → r'.recall_at_10 = r.recall_at_10 →
      ((r.qdrant_disk_gb ≤ thresholds.disk_max) ↔
        ¬r'.qdrant_disk_gb ≤ thresholds.disk_max) →
      disk_ok r' = !disk_ok r ∧ throughput_ok r' = throughput_ok r ∧
        latency_ok r' = latency_ok r ∧ recall_ok r' = recall_ok r) := by
  rw [evalFull] at h
  obtain ⟨b, _, rfl⟩ := Option.map_eq_some'.mp h
  refine ⟨?_, ?_, ?_, ?_, ?_⟩
  · simp [evalRecord, throughput_ok, latency_ok, recall_ok, disk_ok,
      Bool.and_eq_true, decide_eq_true_eq, and_assoc]
  · intro r r' h1 h2 h3 hc
    have hown : throughput_ok r' = !throughput_ok r := by
      by_cases hr : thresholds.throughput_min ≤ r.throughput_chunks_per_min
      · simp [throughput_ok, hr, hc.mp hr]
      · have hb : thresholds.throughput_min ≤ r'.throughput_chunks_per_min := by
          by_contra hnb
          exact hr (hc.mpr hnb)
        simp [throughput_ok, hr, hb]
    exact ⟨hown, by simp [latency_ok, h1], by simp [recall_ok, h2],
      by simp [disk_ok, h3]⟩
  · intro r r' h1 h2 h3 hc
    have hown : latency_ok r' = !latency_ok r := by
      by_cases hr : r.p95_latency_ms ≤ thresholds.p95_latency_max
      · simp [latency_ok, hr, hc.mp hr]
      · have hb : r'.p95_latency_ms ≤ thresholds.p95_latency_max := by
          by_contra hnb
          exact hr (hc.mpr hnb)
        simp [latency_ok, hr, hb]
    exact ⟨hown, by simp [throughput_ok, h1], by simp [recall_ok, h2],
      by simp [disk_ok, h3]⟩
  · intro r r' h1 h2 h3 hc
    have hown : recall_ok r' = !recall_ok r := by
      by_cases hr : thresholds.recall_min ≤ r.recall_at_10
      · simp [recall_ok, hr, hc.mp hr]
      · have hb : thresholds.recall_min ≤ r'.recall_at_10 := by
          by_contra hnb
          exact hr (hc.mpr hnb)
        simp [recall_ok, hr, hb]
    exact ⟨hown, by simp [throughput_ok, h1], by simp [latency_ok, h2],
      by simp [disk_ok, h3]⟩
  · intro r r' h1 h2 h3 hc
    have hown : disk_ok r' = !disk_ok r := by
      by_cases hr : r.qdrant_disk_gb ≤ thresholds.disk_max
      · simp [disk_ok, hr, hc.mp hr]
      · have hb : r'.qdrant_disk_gb ≤ thresholds.disk_max := by
          by_contra hnb
          exact hr (hc.mpr hnb)
        simp [disk_ok, hr, hb]
    exact ⟨hown, by simp [throughput_ok, h1], by simp [latency_ok, h2],
      by simp [recall_ok, h3]⟩

/-- Witness for C1 at the concrete dataset `[wRec]`. -/
theorem go_verdict_iff_all_dimensions_witness :
    evalFull [wRec] = some (evalRecord wRec) ∧
    ((evalRecord wRec).go = true ↔
      (thresholds.throughput_min ≤
        (evalRecord wRec).best_row.throughput_chunks_per_min ∧
       (evalRecord wRec).best_row.p95_latency_ms ≤ thresholds.p95_latency_max ∧
       thresholds.recall_min ≤ (evalRecord wRec).best_row.recall_at_10 ∧
       (evalRecord wRec).best_row.qdrant_disk_gb ≤ thresholds.disk_max)) :=
  ⟨by decide, (go_verdict_iff_all_dimensions [wRec] (evalRecord wRec)
    (by decide)).1⟩

/-- C2: whenever the "full" subset is nonempty, the evaluator's
representative is the earliest "full" record attaining the maximal
`recall_at_10`; any later record with the same maximal recall is never
chosen. -/
theorem representative_first_max_recall (df : List MeasurementRecord)
    (h : df.filter (fun r => r.size == "full") ≠ []) :
    ∃ e, evalFull df = some e ∧
      firstMaxOn (fun r => r.recall_at_10)
        (df.filter (fun r => r.size == "full")) e.best_row := by
  obtain ⟨m, hm⟩ := argmax_of_ne_nil (fun r => r.recall_at_10) _ h
  refine ⟨evalRecord m, ?_, ?_⟩
  · rw [evalFull, hm]
    rfl
  · exact argmax_firstMaxOn _ _ _ hm

/-- Witness for C2 at the concrete tied dataset `tieDf`. -/
theorem representative_first_max_recall_witness :
    tieDf.filter (fun r => r.size == "full") ≠ [] ∧
    (∃ e, evalFull tieDf = some e ∧
      firstMaxOn (fun r => r.recall_at_10)
        (tieDf.filter (fun r => r.size == "full")) e.best_row) :=
  ⟨by decide, representative_first_max_recall tieDf (by decide)⟩

/-- C3: for every size category present in the dataset, ConfigSelector
produces three picks; each belongs to that category's group, no record of
the group strictly beats it on its metric, and among ties it is the
earliest in group order. -/
theorem selector_picks_extremal_earliest (df : List MeasurementRecord)
    (s : String) (hs : s ∈ uniqueSizes df) :
    ∃ sel, selectConfigs (df.filter (fun r => r.size == s)) = some sel ∧
      firstMinOn (fun r => r.p95_latency_ms)
        (df.filter (fun r => r.size == s)) sel.best_latency ∧
      firstMaxOn (fun r => r.recall_at_10)
        (df.filter (fun r => r.size == s)) sel.best_recall ∧
      firstMaxOn (fun r => r.throughput_chunks_per_min)
        (df.filter (fun r => r.size == s)) sel.best_throughput := by
  obtain ⟨sel, hsel, hbl, hbr, hbt⟩ :=
    selectConfigs_of_ne_nil _ (filter_size_ne_nil df s hs)
  exact ⟨sel, hsel, argmin_firstMinOn _ _ _ hbl,
    argmax_firstMaxOn _ _ _ hbr, argmax_firstMaxOn _ _ _ hbt⟩

/-- Witness for C3 at the concrete dataset `selDf`, category "small". -/
theorem selector_picks_extremal_earliest_witness :
    "small" ∈ uniqueSizes selDf ∧
    (∃ sel, selectConfigs (selDf.filter (fun r => r.size == "small")) =
        some sel ∧
      firstMinOn (fun r => r.p95_latency_ms)
        (selDf.filter (fun r => r.size == "small")) sel.best_latency ∧
      firstMaxOn (fun r => r.recall_at_10)
        (selDf.filter (fun r => r.size == "small")) sel.best_recall ∧
      firstMaxOn (fun r => r.throughput_chunks_per_min)
        (selDf.filter (fun r => r.size == "small")) sel.best_throughput) :=
  ⟨by decide, selector_picks_extremal_earliest selDf ("small") (by decide)⟩

/-- C9: whenever the "full" subset is nonempty, the evaluator's
representative record and ConfigSelector's highest-recall pick for the
"full" category are the same record (both are `idxmax` of `recall_at_10`
over the same filtered frame). -/
theorem representative_eq_best_recall_pick (df : List MeasurementRecord)
    (h : df.filter (fun r => r.size == "full") ≠ []) :
    ∃ e sel, evalFull df = some e ∧
      selectConfigs (df.filter (fun r => r.size == "full")) = some sel ∧
      e.best_row = sel.best_recall := by
  obtain ⟨sel, hsel, _, hbr, _⟩ := selectConfigs_of_ne_nil _ h
  refine ⟨evalRecord sel.best_recall, sel, ?_, hsel, rfl⟩
  rw [evalFull, hbr]
  rfl

/-- Witness for C9 at the concrete tied dataset `tieDf`. -/
theorem representative_eq_best_recall_pick_witness :
    tieDf.filter (fun r => r.size == "full") ≠ [] ∧
    (∃ e sel, evalFull tieDf = some e ∧
      selectConfigs (tieDf.filter (fun r => r.size == "full")) = some sel ∧
      e.best_row = sel.best_recall) :=
  ⟨by decide, representative_eq_best_recall_pick tieDf (by decide)⟩

/-- C4: when the "full" category has both an `ef_search = 32` and an
`ef_search = 128` record (first match each, in dataset order), the
tuning-guidance line reports `(value_128 - value_32) / value_32 * 100` for
latency and recall; when either is absent the line is omitted; and on the
specification's 80 vs 100 / 0.80 vs 0.90 scenario the rendered line reads
`+25.0%` latency and `+12.5%` recall. -/
theorem tuning_guidance_formula (df : List MeasurementRecord) :
    (∀ e32 e128 : MeasurementRecord,
      (df.filter (fun r => r.size == "full")).find?
          (fun r => r.ef_search == 32) = some e32 →
      (df.filter (fun r => r.size == "full")).find?
          (fun r => r.ef_search == 128) = some e128 →
      tuningDeltas df =
        some (((e128.p95_latency_ms - e32.p95_latency_ms) /
                 e32.p95_latency_ms) * 100,
              ((e128.recall_at_10 - e32.recall_at_10) /
                 e32.recall_at_10) * 100) ∧
      tuningLines df =
        ["- **ef_search=32 vs 128**: " ++
          fmtSigned 1 (((e128.p95_latency_ms - e32.p95_latency_ms) /
            e32.p95_latency_ms) * 100) ++ "% latency, " ++
          fmtSigned 1 (((e128.recall_at_10 - e32.recall_at_10) /
            e32.recall_at_10) * 100) ++ "% recall"]) ∧
    (((df.filter (fun r => r.size == "full")).find?
          (fun r => r.ef_search == 32) = none ∨
      (df.filter (fun r => r.size == "full")).find?
          (fun r => r.ef_search == 128) = none) →
      tuningLines df = []) ∧
    tuningLines tuningDf =
      ["- **ef_search=32 vs 128**: +25.0% latency, +12.5% recall"] := by
  refine ⟨?_, ?_, ?_⟩
  · intro e32 e128 h32 h128
    have hmem := List.mem_filter.mp (List.mem_of_find?_eq_some h32)
    have hsz : e32.size = "full" := by simpa using hmem.2
    have hfull : ("full") ∈ uniqueSizes df :=
      hsz ▸ size_mem_uniqueSizes df e32 hmem.1
    have hdelta : tuningDeltas df =
        some (((e128.p95_latency_ms - e32.p95_latency_ms) /
                 e32.p95_latency_ms) * 100,
              ((e128.recall_at_10 - e32.recall_at_10) /
                 e32.recall_at_10) * 100) := by
      rw [tuningDeltas, if_pos hfull, h32, h128]
    refine ⟨hdelta, ?_⟩
    rw [tuningLines, hdelta]
  · intro hor
    rw [tuningLines]
    by_cases hfull : ("full") ∈ uniqueSizes df
    · rw [tuningDeltas, if_pos hfull]
      rcases hor with hn | hn
      · rw [hn]
      · rw [hn]
        cases (df.filter (fun r => r.size == "full")).find?
            (fun r => r.ef_search == 32) <;> rfl
    · rw [tuningDeltas, if_neg hfull]
  · have hf : ("full") ∈ uniqueSizes tuningDf := by decide
    have hf32 : (tuningDf.filter (fun r => r.size == "full")).find?
        (fun r => r.ef_search == 32) = some tune32 := by decide
    have hf128 : (tuningDf.filter (fun r => r.size == "full")).find?
        (fun r => r.ef_search == 128) = some tune128 := by decide
    have hdelta : tuningDeltas tuningDf = some (25, mkRat 25 2) := by
      rw [tuningDeltas, if_pos hf, hf32, hf128]
      norm_num [tune32, tune128, Rat.mkRat_eq_div]
    rw [tuningLines, hdelta]
    decide

/-- Witness for C4 at the specification's scenario dataset `tuningDf`. -/
theorem tuning_guidance_formula_witness :
    (tuningDf.filter (fun r => r.size == "full")).find?
        (fun r => r.ef_search == 32) = some tune32 ∧
    tuningDeltas tuningDf =
      some (((tune128.p95_latency_ms - tune32.p95_latency_ms) /
               tune32.p95_latency_ms) * 100,
            ((tune128.recall_at_10 - tune32.recall_at_10) /
               tune32.recall_at_10) * 100) :=
  ⟨by decide, ((tuning_guidance_formula tuningDf).1 tune32 tune128
    (by decide) (by decide)).1⟩

/-- C5 counterexample: the loader performs no bounds validation — a row
with `recall_at_10 = 2` and a negative latency reaches the combined
dataset untouched. -/
theorem loader_no_bounds_validation_cex :
    { badRec with source_file := "bad.csv" } ∈ combinedOf badSources ∧
    ¬recordBounds { badRec with source_file := "bad.csv" } := by
  exact ⟨by decide, by decide⟩

/-- C5 (amended): every row of every successfully parsed source reaches
the combined dataset with only its `source_file` rewritten — no bounds are
checked, and a source that fails to parse is dropped wholesale (source
granularity, not row granularity). -/
theorem loader_passthrough_amended
    (sources : List (String × Option (List MeasurementRecord)))
    (name : String) (rows : List MeasurementRecord) (r : MeasurementRecord)
    (hs : (name, some rows) ∈ sources) (hr : r ∈ rows) :
    { r with source_file := name } ∈ combinedOf sources ∧
    ∀ (nm : String) (rest : List (String × Option (List MeasurementRecord))),
      combinedOf ((nm, none) :: rest) = combinedOf rest := by
  constructor
  · rw [combinedOf, List.mem_flatten]
    refine ⟨rows.map (fun x => { x with source_file := name }), ?_, ?_⟩
    · rw [loadSources]
      exact List.mem_filterMap.mpr ⟨(name, some rows), hs, rfl⟩
    · exact List.mem_map.mpr ⟨r, hr, rfl⟩
  · intro nm rest
    simp [combinedOf, loadSources]

/-- Witness for C5's amended statement at the concrete source list
`badSources`. -/
theorem loader_passthrough_amended_witness :
    ("bad.csv", some [badRec]) ∈ badSources ∧
    { badRec with source_file := "bad.csv" } ∈ combinedOf badSources :=
  ⟨by decide, (loader_passthrough_amended badSources ("bad.csv") [badRec]
    badRec (by decide) (by decide)).1⟩

/-- C6 counterexample: the rendering stage itself persists the document —
`generate_report` performs a file write (lines 156-157), so persistence is
not left to an external collaborator. -/
theorem render_persists_cex :
    (generate_report [wRec]).fileWrites ≠ [] := by decide

/-- C6 (amended): report rendering is a deterministic function of the
dataset — identical sources in identical order produce identical effects,
and the report content written is a function of the dataset alone — but
`generate_report` itself writes the document to
`benchmark_analysis_report.md` rather than delegating persistence. -/
theorem render_deterministic_amended (pat : String)
    (srcs1 srcs2 : List (String × Option (List MeasurementRecord)))
    (h : srcs1 = srcs2) :
    analyze_benchmarks pat srcs1 = analyze_benchmarks pat srcs2 ∧
    ∀ df : List MeasurementRecord,
      (generate_report df).fileWrites =
        [(reportPath, String.intercalate nl (reportLines df))] := by
  subst h
  exact ⟨rfl, fun _ => rfl⟩

/-- Witness for C6's amended statement at the concrete source list
`badSources`. -/
theorem render_deterministic_amended_witness :
    analyze_benchmarks ("p") badSources = analyze_benchmarks ("p") badSources ∧
    ∀ df : List MeasurementRecord,
      (generate_report df).fileWrites =
        [(reportPath, String.intercalate nl (reportLines df))] :=
  render_deterministic_amended ("p") badSources badSources rfl

/-- C7: zero matched sources terminates with only the "no CSV files found"
message and no report write; a nonempty source list in which every source
fails to parse terminates with no report write and the distinct "no valid
CSV files loaded" message; the two user-facing messages differ for every
pattern. -/
theorem terminal_conditions_distinct_messages (pat : String)
    (sources : List (String × Option (List MeasurementRecord))) :
    (sources = [] →
      analyze_benchmarks pat sources =
        { prints := [noFilesMsg pat], fileWrites := [] }) ∧
    (sources ≠ [] → (∀ s ∈ sources, s.2 = none) →
      (analyze_benchmarks pat sources).fileWrites = [] ∧
      noValidMsg ∈ (analyze_benchmarks pat sources).prints) ∧
    noFilesMsg pat ≠ noValidMsg := by
  refine ⟨?_, ?_, ?_⟩
  · rintro rfl
    rfl
  · intro hne hall
    have hload : loadSources sources = [] := by
      rw [loadSources, List.filterMap_eq_nil_iff]
      intro s hsmem
      rw [hall s hsmem]
      rfl
    rcases sources with _ | ⟨s0, rest⟩
    · exact absurd rfl hne
    · rw [analyze_benchmarks]
      rw [hload]
      exact ⟨rfl, by simp⟩
  · intro hEq
    have hlen := congrArg String.length hEq
    rw [noFilesMsg, String.length_append] at hlen
    have h1 : ("❌ No CSV files found matching pattern: ").length = 39 := by
      decide
    have h2 : ("❌ No valid CSV files loaded").length = 27 := by decide
    rw [h1] at hlen
    rw [noValidMsg] at hlen
    rw [h2] at hlen
    omega

/-- Witness for C7 at the empty source list and at a single unparsable
source. -/
theorem terminal_conditions_distinct_messages_witness :
    (analyze_benchmarks ("p") [] =
      { prints := [noFilesMsg ("p")], fileWrites := [] }) ∧
    ((analyze_benchmarks ("p") [(("a.csv"), none)]).fileWrites = [] ∧
      noValidMsg ∈ (analyze_benchmarks ("p") [(("a.csv"), none)]).prints) :=
  ⟨(terminal_conditions_distinct_messages ("p") []).1 rfl,
   (terminal_conditions_distinct_messages ("p") [(("a.csv"), none)]).2.1
     (by decide) (by decide)⟩

/-- C8: on a dataset with no "full" record, threshold evaluation is
skipped (no evaluation result), the go/no-go block contributes no report
line for any present size category, and ConfigSelector still yields its
three picks for every present category. -/
theorem no_full_skips_evaluation (df : List MeasurementRecord)
    (h : ∀ r ∈ df, r.size ≠ "full") :
    evalFull df = none ∧
    (∀ s ∈ uniqueSizes df, goNoGoContrib df s = []) ∧
    (∀ s ∈ uniqueSizes df, ∃ sel,
      selectConfigs (df.filter (fun r => r.size == s)) = some sel) := by
  have hfilt : df.filter (fun r => r.size == "full") = [] := by
    rw [List.filter_eq_nil_iff]
    intro r hr
    simp [h r hr]
  refine ⟨?_, ?_, ?_⟩
  · rw [evalFull, hfilt]
    rfl
  · intro s hs
    have hsne : s ≠ "full" := by
      rintro rfl
      exact filter_size_ne_nil df ("full") hs hfilt
    rw [goNoGoContrib, if_neg (by simpa using hsne)]
  · intro s hs
    obtain ⟨sel, hsel, _⟩ :=
      selectConfigs_of_ne_nil _ (filter_size_ne_nil df s hs)
    exact ⟨sel, hsel⟩

/-- Witness for C8 at the concrete full-free dataset `selDf`. -/
theorem no_full_skips_evaluation_witness :
    evalFull selDf = none ∧
    (∀ s ∈ uniqueSizes selDf, goNoGoContrib selDf s = []) ∧
    (∀ s ∈ uniqueSizes selDf, ∃ sel,
      selectConfigs (selDf.filter (fun r => r.size == s)) = some sel) :=
  no_full_skips_evaluation selDf (by decide)

/-- C10: the tuning-guidance denominators are exactly the first full
`ef_search = 32` record's `p95_latency_ms` and `recall_at_10`, taken with
no zero guard; under the data-model bounds they are nonzero iff both are
strictly positive; and the bounds themselves permit both to be zero, so
positivity is a strictly stronger precondition. -/
theorem tuning_division_precondition (df : List MeasurementRecord)
    (e32 : MeasurementRecord)
    (h : (df.filter (fun r => r.size == "full")).find?
        (fun r => r.ef_search == 32) = some e32)
    (hb : recordBounds e32) :
    tuningDenominators df = some (e32.p95_latency_ms, e32.recall_at_10) ∧
    ((e32.p95_latency_ms ≠ 0 ∧ e32.recall_at_10 ≠ 0) ↔
      (0 < e32.p95_latency_ms ∧ 0 < e32.recall_at_10)) ∧
    (recordBounds zeroRec ∧ zeroRec.p95_latency_ms = 0 ∧
      zeroRec.recall_at_10 = 0) := by
  obtain ⟨_, _, _, _, _, hp95, hrec, _⟩ := hb
  refine ⟨?_, ?_, ?_⟩
  · rw [tuningDenominators, h]
    rfl
  · constructor
    · rintro ⟨h1, h2⟩
      exact ⟨lt_of_le_of_ne hp95 (Ne.symm h1),
        lt_of_le_of_ne hrec (Ne.symm h2)⟩
    · rintro ⟨h1, h2⟩
      exact ⟨ne_of_gt h1, ne_of_gt h2⟩
  · exact ⟨by decide, rfl, rfl⟩

/-- Witness for C10 at the scenario dataset `tuningDf`, whose first
`ef_search = 32` full record is `tune32`. -/
theorem tuning_division_precondition_witness :
    recordBounds tune32 ∧
    tuningDenominators tuningDf =
      some (tune32.p95_latency_ms, tune32.recall_at_10) :=
  ⟨by decide, (tuning_division_precondition tuningDf tune32
    (by decide) (by decide)).1⟩

end BenchmarkAnalysis
